import Mathlib

/-!
A shallow embedding of the concurrent data-refresh and redraw-orchestration
core of the wx terminal weather dashboard.

Sources embedded:
- src/noaa.rs : the data model (Observation, Station, Alerts, Gridpoints,
  Forecast) together with the Default instances used by the fetch-failure
  policy, and the derived accessors coordinates / zone_id / forecast_url.
- src/app.rs : the render loop (run_app) as a per-pass step function plus a
  fuelled multi-pass runner, the mpsc event channel, the fetch worker loop
  body and the input worker translation, and the loading spinner selection.
- src/main.rs : get_weather_data, with the five fallible HTTP collaborators
  abstracted as function-valued inputs (they are external to this core).

The render loop passes record a trace of observable actions; each action is
paired with a Bool saying whether the Snapshot Store mutex is held by the
render loop while that action executes.  In the Rust source the guard
obtained by weather_data.lock() in the Ready branch stays alive until the
end of the loop iteration, so the draw and the blocking recv() both carry
the flag true; in the Loading branch the guard is dropped explicitly before
drawing, so those actions carry false.
-/

namespace Wx

namespace observation

/-- Field wrapper observation::Value of noaa.rs. -/
structure Value (α : Type) where
  value : α
deriving Repr

/-- observation::Properties of noaa.rs.  The f32 fields are embedded as
Float; none of the verified code computes with them. -/
structure Properties where
  description : String
  timestamp : String
  temperature : Value (Option Float)
  wind_chill : Value (Option Float)
  wind_direction : Value (Option Float)
  wind_speed : Value (Option Float)
  relative_humidity : Value (Option Float)

/-- The manual Default impl for observation::Properties.  Its timestamp is
Local::now().to_rfc3339(); the ambient clock string is passed in as now. -/
def Properties.mkDefault (now : String) : Properties :=
  ⟨"--", now, ⟨none⟩, ⟨none⟩, ⟨none⟩, ⟨none⟩, ⟨none⟩⟩

/-- observation::Observation of noaa.rs. -/
structure Observation where
  properties : Properties

/-- The derived Default for observation::Observation. -/
def Observation.mkDefault (now : String) : Observation :=
  ⟨Properties.mkDefault now⟩

end observation

namespace station

/-- station::Geometry of noaa.rs: a (lon, lat) coordinate pair. -/
structure Geometry where
  coordinates : Float × Float

/-- The derived Default for station::Geometry (f32 defaults to 0.0). -/
def Geometry.mkDefault : Geometry :=
  ⟨((0 : Float), (0 : Float))⟩

/-- station::Properties of noaa.rs. -/
structure Properties where
  name : String
  forecast : String
  station_identifier : String

/-- The manual Default impl for station::Properties. -/
def Properties.mkDefault : Properties :=
  ⟨"--", "--", "--"⟩

/-- station::Station of noaa.rs. -/
structure Station where
  properties : Properties
  geometry : Geometry

/-- The derived Default for station::Station. -/
def Station.mkDefault : Station :=
  ⟨Properties.mkDefault, Geometry.mkDefault⟩

/-- Station::coordinates: returns (lat, lon), i.e. the stored pair with its
components swapped (lat = coordinates.1, lon = coordinates.0 in the Rust
tuple indexing). -/
def Station.coordinates (s : Station) : Float × Float :=
  (s.geometry.coordinates.2, s.geometry.coordinates.1)

/-- Station::zone_id: the last token of properties.forecast split on "/".
String::split always yields at least one token, so the unwrap() in the
source cannot fail; getLastD stands in for last().unwrap(). -/
def Station.zone_id (s : Station) : String :=
  (s.properties.forecast.splitOn "/").getLastD ""

end station

namespace gridpoints

/-- gridpoints::Properties of noaa.rs. -/
structure Properties where
  forecast : String

/-- gridpoints::Gridpoints of noaa.rs. -/
structure Gridpoints where
  properties : Properties

/-- The derived Default for gridpoints::Gridpoints (String defaults to ""). -/
def Gridpoints.mkDefault : Gridpoints :=
  ⟨⟨""⟩⟩

/-- Gridpoints::forecast_url. -/
def Gridpoints.forecast_url (g : Gridpoints) : String :=
  g.properties.forecast

end gridpoints

namespace forecast

/-- forecast::Results of noaa.rs. -/
structure Results where
  name : Option String
  temperature : Option Float
  short_forecast : Option String

/-- forecast::Properties of noaa.rs. -/
structure Properties where
  periods : List Results

/-- forecast::Forecast of noaa.rs. -/
structure Forecast where
  properties : Properties

/-- The derived Default for forecast::Forecast (Vec defaults to empty). -/
def Forecast.mkDefault : Forecast :=
  ⟨⟨[]⟩⟩

end forecast

namespace alerts

/-- alerts::Properties of noaa.rs. -/
structure Properties where
  severity : String
  certainty : String
  event : String
  onset : String
  ends : String

/-- alerts::Feature of noaa.rs. -/
structure Feature where
  properties : Properties

/-- alerts::Alerts of noaa.rs. -/
structure Alerts where
  features : List Feature

/-- The derived Default for alerts::Alerts (Vec defaults to empty). -/
def Alerts.mkDefault : Alerts :=
  ⟨[]⟩

end alerts

/-- The WeatherData tuple of app.rs. -/
abbrev WeatherData :=
  observation.Observation × station.Station × alerts.Alerts × forecast.Forecast

/-- The five fallible HTTP collaborators used by get_weather_data in
main.rs, abstracted as inputs (reqwest is external to this core); a failed
call is none. -/
structure NoaaApi where
  observation_from_station : String → Option observation.Observation
  station_from_station : String → Option station.Station
  alerts_from_noaa : String → Option alerts.Alerts
  gridpoints_from_coord : Float → Float → Option gridpoints.Gridpoints
  forecast_from_noaa : String → Option forecast.Forecast

/-- get_weather_data of main.rs: each fallible call is followed by
unwrap_or_default (embedded as Option.getD of the corresponding Default),
so the function is total and substitutes defaults componentwise.  The now
parameter feeds the clock-dependent Default of observation::Properties. -/
def get_weather_data (api : NoaaApi) (now station_id : String) : WeatherData :=
  let obs := (api.observation_from_station station_id).getD
    (observation.Observation.mkDefault now)
  let stat := (api.station_from_station station_id).getD station.Station.mkDefault
  let alert := (api.alerts_from_noaa stat.zone_id).getD alerts.Alerts.mkDefault
  let lat := stat.coordinates.1
  let lon := stat.coordinates.2
  let grid := (api.gridpoints_from_coord lat lon).getD gridpoints.Gridpoints.mkDefault
  let fc := (api.forecast_from_noaa grid.forecast_url).getD forecast.Forecast.mkDefault
  (obs, stat, alert, fc)

/-- An environment in which every HTTP call fails. -/
def apiAllFail : NoaaApi :=
  ⟨fun _ => none, fun _ => none, fun _ => none, fun _ _ => none, fun _ => none⟩

/-- A concrete snapshot made of the component defaults (the placeholder
snapshot produced when every fetch fails). -/
def wDefault (now : String) : WeatherData :=
  (observation.Observation.mkDefault now, station.Station.mkDefault,
   alerts.Alerts.mkDefault, forecast.Forecast.mkDefault)

/-- AppEvent of app.rs. -/
inductive AppEvent
  | redraw
  | exit
deriving DecidableEq, Repr

/-- The std::sync::mpsc channel as seen by the single receiver: the queue of
not-yet-received events, and whether any sender is still alive. -/
structure Channel where
  queue : List AppEvent
  sendersAlive : Bool
deriving DecidableEq, Repr

/-- What Receiver::recv() does: returns the head event if one is queued
(even if the senders are gone), errors with RecvError if the queue is empty
and all senders were dropped, and otherwise blocks. -/
inductive RecvOut
  | got (e : AppEvent)
  | disconnected
  | wouldBlock
deriving DecidableEq, Repr

def Channel.recvOut : Channel → RecvOut
  | ⟨e :: _, _⟩ => .got e
  | ⟨[], true⟩ => .wouldBlock
  | ⟨[], false⟩ => .disconnected

/-- What Receiver::try_recv() does: head event if queued, TryRecvError::Empty
if the queue is empty with live senders, TryRecvError::Disconnected if the
queue is empty and all senders were dropped. -/
inductive TryRecvOut
  | got (e : AppEvent)
  | empty
  | disconnected
deriving DecidableEq, Repr

def Channel.tryRecvOut : Channel → TryRecvOut
  | ⟨e :: _, _⟩ => .got e
  | ⟨[], true⟩ => .empty
  | ⟨[], false⟩ => .disconnected

/-- The channel after a successful receive (head dequeued). -/
def Channel.afterRecv : Channel → Channel
  | ⟨_ :: rest, a⟩ => ⟨rest, a⟩
  | ⟨[], a⟩ => ⟨[], a⟩

/-- Sender::send: appends to the queue (never blocks). -/
def Channel.send (ch : Channel) (e : AppEvent) : Channel :=
  ⟨ch.queue ++ [e], ch.sendersAlive⟩

/-- The observable actions of one render-loop pass.  terminal.draw with the
Ready ui and with the loading spinner, the 100ms sleep, and the two channel
reads. -/
inductive Action
  | drawUi (d : WeatherData)
  | drawLoading (tick : Nat)
  | sleepMs (ms : Nat)
  | chanRecv
  | chanTryRecv

/-- How one pass of run_app's loop ends. -/
inductive PassOutcome
  | nextIter
  | returnOk
  | panicked (msg : String)
  | blockedOnRecv
deriving DecidableEq, Repr

/-- The result of one pass: the trace of actions (each tagged with whether
the Snapshot Store mutex is held by the render loop during the action), the
updated loading counter, the updated channel, and how the pass ended. -/
structure PassResult where
  trace : List (Action × Bool)
  counter : Nat
  chan : Channel
  outcome : PassOutcome

/-- One iteration of run_app's loop (src/app.rs lines 42-63), given the
Snapshot Store contents observed when the mutex is taken at the top of the
pass.  Ready branch: the MutexGuard bound to data stays alive through
terminal.draw and rx.recv() — it is dropped only when the iteration ends —
so both actions are tagged true.  Loading branch: drop(data) releases the
guard before drawing, so every action is tagged false; the pass draws
loading(counter), increments the counter, sleeps 100ms, then polls with
try_recv: Ok(Redraw) and Err(Empty) continue the loop, Ok(Exit) returns
Ok(()), Err(Disconnected) hits the panic arm "Thread crashed".  In the
Ready branch recv().unwrap() panics on RecvError.  terminal.draw errors are
outside this core (the render collaborator is an opaque sink). -/
def run_app_pass (store : Option WeatherData) (counter : Nat) (chan : Channel) :
    PassResult :=
  match store with
  | some d =>
    match chan.recvOut with
    | .got .redraw =>
      ⟨[(.drawUi d, true), (.chanRecv, true)], counter, chan.afterRecv, .nextIter⟩
    | .got .exit =>
      ⟨[(.drawUi d, true), (.chanRecv, true)], counter, chan.afterRecv, .returnOk⟩
    | .disconnected =>
      ⟨[(.drawUi d, true), (.chanRecv, true)], counter, chan,
        .panicked "called unwrap on an Err value: RecvError"⟩
    | .wouldBlock =>
      ⟨[(.drawUi d, true), (.chanRecv, true)], counter, chan, .blockedOnRecv⟩
  | none =>
    let t : List (Action × Bool) :=
      [(.drawLoading counter, false), (.sleepMs 100, false), (.chanTryRecv, false)]
    match chan.tryRecvOut with
    | .got .redraw => ⟨t, counter + 1, chan.afterRecv, .nextIter⟩
    | .empty => ⟨t, counter + 1, chan, .nextIter⟩
    | .got .exit => ⟨t, counter + 1, chan.afterRecv, .returnOk⟩
    | .disconnected => ⟨t, counter + 1, chan, .panicked "Thread crashed"⟩

/-- How a fuelled multi-pass run of run_app ends. -/
inductive RunOutcome
  | returnOk
  | panicked (msg : String)
  | blockedOnRecv
  | outOfFuel
deriving DecidableEq, Repr

/-- Result of a fuelled multi-pass run of run_app. -/
structure RunResult where
  trace : List (Action × Bool)
  counter : Nat
  chan : Channel
  outcome : RunOutcome

/-- run_app's loop, run for at most fuel passes.  storeAt i is the Snapshot
Store contents the pass numbered i observes when it takes the mutex (the
fetch worker may replace the value between passes); i is the index of the
next pass and counter the loading counter. -/
def run_app (fuel : Nat) (storeAt : Nat → Option WeatherData) (i counter : Nat)
    (chan : Channel) : RunResult :=
  match fuel with
  | 0 => ⟨[], counter, chan, .outOfFuel⟩
  | fuel + 1 =>
    match run_app_pass (storeAt i) counter chan with
    | ⟨tr, c2, ch2, .nextIter⟩ =>
      let rest := run_app fuel storeAt (i + 1) c2 ch2
      ⟨tr ++ rest.trace, rest.counter, rest.chan, rest.outcome⟩
    | ⟨tr, c2, ch2, .returnOk⟩ => ⟨tr, c2, ch2, .returnOk⟩
    | ⟨tr, c2, ch2, .panicked m⟩ => ⟨tr, c2, ch2, .panicked m⟩
    | ⟨tr, c2, ch2, .blockedOnRecv⟩ => ⟨tr, c2, ch2, .blockedOnRecv⟩

/-- The snapshots passed to the Ready ui draw calls of a trace, in order. -/
def uiDraws (t : List (Action × Bool)) : List WeatherData :=
  t.filterMap fun p =>
    match p.1 with
    | .drawUi d => some d
    | _ => none

/-- The ticks passed to the loading draw calls of a trace, in order. -/
def loadingTicks (t : List (Action × Bool)) : List Nat :=
  t.filterMap fun p =>
    match p.1 with
    | .drawLoading n => some n
    | _ => none

/-- One terminal event as classified by the input worker's match: a
character key, a non-character key, a resize notification, or any other
crossterm event. -/
inductive TermEvent
  | key (c : Char)
  | keyOther
  | resize (w h : Nat)
  | otherEvent
deriving DecidableEq, Repr

/-- The input worker's translation of one terminal event (src/app.rs lines
90-102): a key event emits Exit exactly when the key is the character q, a
resize emits Redraw, everything else emits nothing. -/
def input_worker_step : TermEvent → Option AppEvent
  | .key c => if c = 'q' then some .exit else none
  | .keyOther => none
  | .resize _ _ => some .redraw
  | .otherEvent => none

/-- The events the input worker sends over a finite prefix of its infinite
loop: one read per iteration, each translated independently of everything
read before (the loop has no state). -/
def input_worker_run : List TermEvent → List AppEvent
  | [] => []
  | e :: rest =>
    match input_worker_step e with
    | some a => a :: input_worker_run rest
    | none => input_worker_run rest

/-- Modelled from the spec (§4.3, the behaviour claim C2 asserts): the same
translation, but the worker stops producing events once Exit is emitted. -/
def input_spec_run : List TermEvent → List AppEvent
  | [] => []
  | e :: rest =>
    match input_worker_step e with
    | some .exit => [.exit]
    | some a => a :: input_spec_run rest
    | none => input_spec_run rest

/-- The effects of the fetch worker loop body, in program order. -/
inductive WorkerAct
  | callGetData
  | storeReplace (d : WeatherData)
  | sendEvent (e : AppEvent)
  | sleepSecs (n : Nat)

/-- One cycle of the fetch worker's loop body (src/app.rs lines 81-86):
call get_data immediately, replace the Snapshot Store contents wholesale,
send Redraw, then sleep 10 seconds. -/
def fetch_worker_cycle (gd : String → WeatherData) (station_id : String) :
    List WorkerAct :=
  [.callGetData, .storeReplace (gd station_id), .sendEvent .redraw, .sleepSecs 10]

/-- n cycles of the fetch worker's intentionally infinite loop. -/
def fetch_worker_run (gd : String → WeatherData) (station_id : String) :
    Nat → List WorkerAct
  | 0 => []
  | n + 1 => fetch_worker_cycle gd station_id ++ fetch_worker_run gd station_id n

/-- Whether run_app's loop is still running, has returned Ok, or has
panicked. -/
inductive LoopStatus
  | running
  | done
  | crashed (msg : String)
deriving DecidableEq, Repr

/-- Global state of the three threads of control: the Snapshot Store, the
event channel, the render loop's counter and status together with the
snapshots and ticks it has drawn so far, the number of completed write()
calls into the store, and whether the input worker thread is still alive.
chan.sendersAlive stays true in every reachable state because the fetch
worker never stops, so its Sender is never dropped. -/
structure SysState where
  store : Option WeatherData
  chan : Channel
  counter : Nat
  writes : Nat
  readyDraws : List WeatherData
  loadingDraws : List Nat
  loop : LoopStatus
  inputAlive : Bool

/-- What the input worker's blocking event::read() yields: an event, or an
io error (on which the unwrap panics). -/
inductive ReadOutcome
  | ok (e : TermEvent)
  | ioError
deriving DecidableEq, Repr

/-- One scheduling step of the interleaved system: a full fetch worker
cycle, one render-loop pass, or one input worker read. -/
inductive SysLabel
  | fetchCycle (d : WeatherData)
  | renderPass
  | inputRead (r : ReadOutcome)

/-- A worker send: delivered while the render loop (which owns the Receiver)
is running; once run_app has returned or panicked the Receiver is dropped
and send returns Err, which both workers ignore with a discarded result. -/
def sysSend (s : SysState) (e : AppEvent) : Channel :=
  if s.loop = .running then s.chan.send e else s.chan

/-- The interleaved small-step semantics.  fetchCycle d is one complete
fetch worker cycle whose get_data call returned d: it replaces the store
wholesale and sends Redraw (write and send are each atomic; the store
mutex is held only for the replace).  renderPass is one pass of run_app,
enabled while the loop is running and not blocked in recv (a Ready pass
fires once an event is available).  inputRead is one iteration of the input
worker, enabled while that thread is alive; an io error makes its unwrap
panic, which kills the input worker thread alone — the other threads and
the process keep running, and the channel stays connected because the fetch
worker's Sender is still alive. -/
def sysStep (s : SysState) : SysLabel → Option SysState
  | .fetchCycle d =>
    some { s with store := some d, writes := s.writes + 1, chan := sysSend s .redraw }
  | .renderPass =>
    if s.loop = .running then
      match run_app_pass s.store s.counter s.chan with
      | ⟨tr, c2, ch2, .nextIter⟩ =>
        some { s with
                counter := c2
                chan := ch2
                readyDraws := s.readyDraws ++ uiDraws tr
                loadingDraws := s.loadingDraws ++ loadingTicks tr }
      | ⟨tr, c2, ch2, .returnOk⟩ =>
        some { s with
                counter := c2
                chan := ch2
                readyDraws := s.readyDraws ++ uiDraws tr
                loadingDraws := s.loadingDraws ++ loadingTicks tr
                loop := .done }
      | ⟨tr, c2, ch2, .panicked m⟩ =>
        some { s with
                counter := c2
                chan := ch2
                readyDraws := s.readyDraws ++ uiDraws tr
                loadingDraws := s.loadingDraws ++ loadingTicks tr
                loop := .crashed m }
      | ⟨_, _, _, .blockedOnRecv⟩ => none
    else none
  | .inputRead .ioError =>
    if s.inputAlive then some { s with inputAlive := false } else none
  | .inputRead (.ok ev) =>
    if s.inputAlive then
      match input_worker_step ev with
      | some e => some { s with chan := sysSend s e }
      | none => some s
    else none

/-- Run the system along a schedule; none if some step is not enabled. -/
def sysRun (s : SysState) : List SysLabel → Option SysState
  | [] => some s
  | l :: ls =>
    match sysStep s l with
    | some s2 => sysRun s2 ls
    | none => none

/-- The state right after run_app has spawned the workers: empty store,
empty connected channel, counter 0, nothing drawn or written, loop running,
input worker alive. -/
def sysInit : SysState :=
  ⟨none, ⟨[], true⟩, 0, 0, [], [], .running, true⟩

/-- The spinner selection inside loading (src/app.rs lines 294-304): the
match on idx % 8 with eight literal arms; the wildcard arm is
unreachable!(), embedded as none. -/
def loading_spinner (idx : Nat) : Option String :=
  match idx % 8 with
  | 0 => some "⣾"
  | 1 => some "⣽"
  | 2 => some "⣻"
  | 3 => some "⢿"
  | 4 => some "⡿"
  | 5 => some "⣟"
  | 6 => some "⣯"
  | 7 => some "⣷"
  | _ => none

/-- The expected trace of a Ready run that consumes n Redraw events and then
one Exit: each pass draws the snapshot read at that pass and then receives,
with the store mutex held throughout. -/
def readyTrace (d : Nat → WeatherData) (i : Nat) : Nat → List (Action × Bool)
  | 0 => [(.drawUi (d i), true), (.chanRecv, true)]
  | n + 1 => (.drawUi (d i), true) :: (.chanRecv, true) :: readyTrace d (i + 1) n

/-- Safety invariant of the interleaved system: a present snapshot and a
performed Ready draw each imply that at least one write() has completed. -/
def sysInv (s : SysState) : Prop :=
  (s.store.isSome → 0 < s.writes) ∧ (s.readyDraws ≠ [] → 0 < s.writes)

end Wx

namespace Wx

/-- The input worker's emissions are the per-event translation of its reads:
its loop carries no state between iterations. -/
theorem input_worker_run_eq_filterMap (evts : List TermEvent) :
    input_worker_run evts = evts.filterMap input_worker_step := by
  induction evts with
  | nil => rfl
  | cons e rest ih =>
    unfold input_worker_run
    cases h : input_worker_step e <;> simp [List.filterMap_cons, h, ih]

/-- Every Ready pass produces the same two-action trace: the ui draw and the
channel receive, both with the store mutex held. -/
theorem run_app_pass_some_trace (d : WeatherData) (c : Nat) (ch : Channel) :
    (run_app_pass (some d) c ch).trace
      = [(.drawUi d, true), (.chanRecv, true)] := by
  obtain ⟨q, a⟩ := ch
  rcases q with _ | ⟨e, rest⟩
  · cases a <;> rfl
  · cases e <;> rfl

/-- A Loading pass never draws the Ready ui. -/
theorem uiDraws_none_pass (c : Nat) (ch : Channel) :
    uiDraws (run_app_pass none c ch).trace = [] := by
  obtain ⟨q, a⟩ := ch
  rcases q with _ | ⟨e, rest⟩
  · cases a <;> rfl
  · cases e <;> rfl

/-- A Loading pass never ends blocked: try_recv does not block. -/
theorem run_app_pass_none_not_blocked (c : Nat) (ch : Channel) :
    (run_app_pass none c ch).outcome ≠ .blockedOnRecv := by
  obtain ⟨q, a⟩ := ch
  rcases q with _ | ⟨e, rest⟩
  · rcases a with _ | _
    · rw [show (run_app_pass none c ⟨[], false⟩).outcome
          = .panicked "Thread crashed" from rfl]
      decide
    · rw [show (run_app_pass none c ⟨[], true⟩).outcome = .nextIter from rfl]
      decide
  · rcases e with _ | _
    · rw [show (run_app_pass none c ⟨.redraw :: rest, a⟩).outcome
          = .nextIter from rfl]
      decide
    · rw [show (run_app_pass none c ⟨.exit :: rest, a⟩).outcome
          = .returnOk from rfl]
      decide

/-- A Ready pass with a nonempty queue dequeues the head: Redraw continues
the loop and Exit returns Ok. -/
theorem run_app_pass_some_outcome (d : WeatherData) (c : Nat) (e : AppEvent)
    (rest : List AppEvent) (a : Bool) :
    (run_app_pass (some d) c ⟨e :: rest, a⟩).outcome
      = (match e with | .redraw => .nextIter | .exit => .returnOk) := by
  cases e <;> rfl

/-- While the loop runs in Loading, a render pass is always enabled: the
non-blocking poll cannot leave the pass blocked. -/
theorem sysStep_renderPass_loading_isSome (s : SysState) (hrun : s.loop = .running)
    (hst : s.store = none) : (sysStep s .renderPass).isSome := by
  simp only [sysStep]
  rw [if_pos hrun, hst]
  rcases hq : run_app_pass none s.counter s.chan with ⟨tr, c2, ch2, o⟩
  have ho := run_app_pass_none_not_blocked s.counter s.chan
  rw [hq] at ho
  cases o
  · rfl
  · rfl
  · rfl
  · exact absurd rfl ho

/-- A Loading pass always increments the loading counter by exactly one. -/
theorem run_app_pass_none_counter (c : Nat) (ch : Channel) :
    (run_app_pass none c ch).counter = c + 1 := by
  obtain ⟨q, a⟩ := ch
  rcases q with _ | ⟨e, rest⟩
  · cases a <;> rfl
  · cases e <;> rfl

/-- A Ready pass leaves the loading counter unchanged. -/
theorem run_app_pass_some_counter (d : WeatherData) (c : Nat) (ch : Channel) :
    (run_app_pass (some d) c ch).counter = c := by
  obtain ⟨q, a⟩ := ch
  rcases q with _ | ⟨e, rest⟩
  · cases a <;> rfl
  · cases e <;> rfl

/-- No single pass ever decreases the loading counter. -/
theorem run_app_pass_counter_le (st : Option WeatherData) (c : Nat) (ch : Channel) :
    c ≤ (run_app_pass st c ch).counter := by
  rcases st with _ | d
  · rw [run_app_pass_none_counter]
    omega
  · rw [run_app_pass_some_counter]

/-- The loading counter never decreases over a run: it is never reset. -/
theorem run_app_counter_le (fuel : Nat) :
    ∀ storeAt i c ch, c ≤ (run_app fuel storeAt i c ch).counter := by
  induction fuel with
  | zero =>
    intro storeAt i c ch
    exact Nat.le_refl c
  | succ n ih =>
    intro storeAt i c ch
    have hle := run_app_pass_counter_le (storeAt i) c ch
    unfold run_app
    rcases hp : run_app_pass (storeAt i) c ch with ⟨tr, c2, ch2, o⟩
    rw [hp] at hle
    cases o
    · exact Nat.le_trans hle (ih storeAt (i + 1) c2 ch2)
    · exact hle
    · exact hle
    · exact hle

/-- C10: for every usize tick value, the spinner index tick % 8 falls in the
eight literal match arms of loading, so the wildcard unreachable arm is
never taken and the spinner selection cannot panic. -/
theorem loading_spinner_never_unreachable (idx : Nat) :
    (loading_spinner idx).isSome := by
  have h : idx % 8 < 8 := Nat.mod_lt _ (by omega)
  unfold loading_spinner
  rcases h8 : idx % 8 with _ | _ | _ | _ | _ | _ | _ | _ | n
  · rfl
  · rfl
  · rfl
  · rfl
  · rfl
  · rfl
  · rfl
  · rfl
  · omega

/-- C1: the claim asserts the Ready branch releases the Snapshot Store lock
before calling the render collaborator and before blocking on recv().  The
code does the opposite: the MutexGuard taken at the top of the loop stays
alive to the end of the iteration, so every Ready pass draws the ui AND
performs the blocking recv() with the lock held (both actions tagged true),
starving the fetch worker's write() for the whole event wait.  This
contradicts the discipline the source itself documents in the Loading
branch comment (drop the lock so we do not stop the worker from updating)
and the spec's locking-discipline requirement, so it is recorded as a code
bug rather than an amendment. -/
theorem ready_pass_holds_lock_across_draw_and_recv (d : WeatherData) (c : Nat)
    (ch : Channel) :
    (run_app_pass (some d) c ch).trace
      = [(.drawUi d, true), (.chanRecv, true)] :=
  run_app_pass_some_trace d c ch

/-- C2 counterexample: the input worker keeps emitting after it has emitted
Exit.  Reading a q keypress and then a resize emits Exit followed by
Redraw, whereas the claimed behaviour (input_spec_run) emits nothing
after the Exit. -/
theorem input_worker_emits_after_exit :
    input_worker_run [.key 'q', .resize 80 24] = [.exit, .redraw] ∧
    input_spec_run [.key 'q', .resize 80 24] = [.exit] ∧
    input_worker_run [.key 'q', .resize 80 24]
      ≠ input_spec_run [.key 'q', .resize 80 24] :=
  ⟨by decide, by decide, by decide⟩

/-- C2 (amended): the input worker translates each read independently of
everything read before — q emits Exit, resize emits Redraw, every other
input emits nothing — and this holds also after an Exit has been emitted
(the worker never stops emitting; the per-event rules are unchanged before
and after a q). -/
theorem input_worker_stateless (evts pre post : List TermEvent) (w h : Nat)
    (c : Char) (hc : c ≠ 'q') :
    input_worker_run evts = evts.filterMap input_worker_step ∧
    input_worker_run (pre ++ post) = input_worker_run pre ++ input_worker_run post ∧
    input_worker_step (.key 'q') = some .exit ∧
    input_worker_step (.resize w h) = some .redraw ∧
    input_worker_step (.key c) = none ∧
    input_worker_step .keyOther = none ∧
    input_worker_step .otherEvent = none := by
  refine ⟨input_worker_run_eq_filterMap evts, ?_, rfl, rfl, ?_, rfl, rfl⟩
  · rw [input_worker_run_eq_filterMap, input_worker_run_eq_filterMap,
      input_worker_run_eq_filterMap, List.filterMap_append]
  · simp [input_worker_step, hc]

theorem input_worker_stateless_witness :
    input_worker_run [TermEvent.key 'q', TermEvent.key 'a', TermEvent.resize 3 4]
      = [AppEvent.exit, AppEvent.redraw] := by
  have h := input_worker_stateless
    [TermEvent.key 'q', TermEvent.key 'a', TermEvent.resize 3 4] [] [] 3 4 'a'
    (by decide)
  exact h.1.trans (by decide)

/-- C6: observing the channel disconnected is fatal in both states.  From
the blocking recv() of the Ready branch it panics via unwrap on RecvError;
from the non-blocking try_recv() of the Loading branch it hits the explicit
panic arm.  An ordinary empty poll, by contrast, just continues the loop:
disconnection is never treated as a normal empty-poll result, and neither
state hangs. -/
theorem channel_disconnect_is_fatal (d : WeatherData) (c : Nat) :
    (run_app_pass (some d) c ⟨[], false⟩).outcome
      = .panicked "called unwrap on an Err value: RecvError" ∧
    (run_app_pass none c ⟨[], false⟩).outcome = .panicked "Thread crashed" ∧
    (run_app_pass none c ⟨[], true⟩).outcome = .nextIter :=
  ⟨rfl, rfl, rfl⟩

/-- C3: while the store is absent, each pass draws the loading indicator
with the current counter value (lock released first: all actions tagged
false), increments the counter by exactly one, sleeps 100ms, then polls
non-blockingly; Redraw and an empty poll continue the loop — and if the
store now holds a value, the very next pass renders it Ready — Exit
returns success; and over any run the counter never decreases (it is never
reset). -/
theorem loading_state_behaviour (c : Nat) (d : WeatherData) :
    (run_app_pass none c ⟨[], true⟩).trace
      = [(.drawLoading c, false), (.sleepMs 100, false), (.chanTryRecv, false)] ∧
    (∀ ch : Channel, (run_app_pass none c ch).counter = c + 1) ∧
    (run_app_pass none c ⟨[], true⟩).outcome = .nextIter ∧
    (run_app_pass none c ⟨[.redraw], true⟩).outcome = .nextIter ∧
    (run_app_pass none c ⟨[.exit], true⟩).outcome = .returnOk ∧
    (run_app 2 (fun i => if i = 0 then none else some d) 0 c ⟨[.redraw], true⟩).trace
      = [(.drawLoading c, false), (.sleepMs 100, false), (.chanTryRecv, false),
         (.drawUi d, true), (.chanRecv, true)] ∧
    (run_app 2 (fun i => if i = 0 then none else some d) 0 c ⟨[], true⟩).trace
      = [(.drawLoading c, false), (.sleepMs 100, false), (.chanTryRecv, false),
         (.drawUi d, true), (.chanRecv, true)] ∧
    (∀ fuel storeAt i ch, c ≤ (run_app fuel storeAt i c ch).counter) :=
  ⟨rfl, fun ch => run_app_pass_none_counter c ch, rfl, rfl, rfl, rfl, rfl,
    fun fuel storeAt i ch => run_app_counter_le fuel storeAt i c ch⟩

/-- A Ready run over a queue of n Redraws followed by Exit and then
anything: every pass re-reads the store, draws, and receives; the run
returns Ok at the Exit, leaving the events queued after it unconsumed. -/
theorem run_app_ready_queue (d : Nat → WeatherData) (post : List AppEvent)
    (n : Nat) :
    ∀ i c, run_app (n + 2) (fun j => some (d j)) i c
        ⟨List.replicate n .redraw ++ .exit :: post, true⟩
      = ⟨readyTrace d i n, c, ⟨post, true⟩, .returnOk⟩ := by
  induction n with
  | zero =>
    intro i c
    rfl
  | succ n ih =>
    intro i c
    have hq : List.replicate (n + 1) AppEvent.redraw ++ .exit :: post
        = .redraw :: (List.replicate n .redraw ++ .exit :: post) := by
      simp [List.replicate_succ]
    rw [hq]
    show (⟨(Action.drawUi (d i), true) :: (Action.chanRecv, true) ::
        (run_app (n + 2) (fun j => some (d j)) (i + 1) c
          ⟨List.replicate n AppEvent.redraw ++ AppEvent.exit :: post, true⟩).trace,
        (run_app (n + 2) (fun j => some (d j)) (i + 1) c
          ⟨List.replicate n AppEvent.redraw ++ AppEvent.exit :: post, true⟩).counter,
        (run_app (n + 2) (fun j => some (d j)) (i + 1) c
          ⟨List.replicate n AppEvent.redraw ++ AppEvent.exit :: post, true⟩).chan,
        (run_app (n + 2) (fun j => some (d j)) (i + 1) c
          ⟨List.replicate n AppEvent.redraw ++ AppEvent.exit :: post, true⟩).outcome⟩ :
        RunResult)
      = ⟨readyTrace d i (n + 1), c, ⟨post, true⟩, .returnOk⟩
    rw [ih (i + 1) c]
    rfl

/-- The Ready draws of such a run are exactly one per pass, each reading
the store value current at that pass. -/
theorem uiDraws_readyTrace (d : Nat → WeatherData) (n : Nat) :
    ∀ i, uiDraws (readyTrace d i n) = (List.range (n + 1)).map fun k => d (i + k) := by
  induction n with
  | zero =>
    intro i
    show [d i] = _
    simp [List.range_succ]
  | succ n ih =>
    intro i
    have h1 : uiDraws (readyTrace d i (n + 1)) = d i :: uiDraws (readyTrace d (i + 1) n) := by
      simp [readyTrace, uiDraws, List.filterMap_cons]
    have h2 : (fun k => d (i + 1 + k)) = ((fun k => d (i + k)) ∘ Nat.succ) := by
      funext k
      show d (i + 1 + k) = d (i + (k + 1))
      congr 1
      omega
    rw [h1, ih (i + 1), h2]
    conv_rhs => rw [List.range_succ_eq_map]
    rw [List.map_cons, List.map_map]
    simp

/-- C4: whenever the store holds a value, each pass reads the latest
snapshot, renders it, and blocks on recv(); a queue of N Redraws followed
by Exit yields exactly one render per pass — the initial render plus one
per Redraw, N+1 in total, each re-reading the store fresh (pass k draws the
value the store holds at pass k) — and the Exit ends the loop with
success. -/
theorem ready_state_redraw_rerenders (N c : Nat) (d : Nat → WeatherData) :
    (run_app (N + 2) (fun i => some (d i)) 0 c
        ⟨List.replicate N .redraw ++ [.exit], true⟩).outcome = .returnOk ∧
    uiDraws (run_app (N + 2) (fun i => some (d i)) 0 c
        ⟨List.replicate N .redraw ++ [.exit], true⟩).trace
      = (List.range (N + 1)).map d := by
  have h := run_app_ready_queue d [] N 0 c
  rw [h]
  refine ⟨rfl, ?_⟩
  have h2 := uiDraws_readyTrace d N 0
  simpa using h2

/-- C7: an Exit delivered in Loading ends the loop with success at the
non-blocking poll, without any Ready render having happened; an Exit
delivered in Ready ends the loop on the recv() that dequeues it, after the
N Redraws queued before it were each processed (one render per Redraw, in
FIFO order: the trace is the N+1 draw/recv pairs and nothing after the
Exit), and the events queued behind the Exit are left unconsumed. -/
theorem exit_event_terminates (c N : Nat) (d : Nat → WeatherData)
    (post : List AppEvent) :
    (run_app 1 (fun _ => none) 0 c ⟨.exit :: post, true⟩).outcome = .returnOk ∧
    uiDraws (run_app 1 (fun _ => none) 0 c ⟨.exit :: post, true⟩).trace = [] ∧
    run_app (N + 2) (fun i => some (d i)) 0 c
        ⟨List.replicate N .redraw ++ .exit :: post, true⟩
      = ⟨readyTrace d 0 N, c, ⟨post, true⟩, .returnOk⟩ ∧
    uiDraws (readyTrace d 0 N) = (List.range (N + 1)).map d := by
  refine ⟨rfl, rfl, run_app_ready_queue d post N 0 c, ?_⟩
  have h2 := uiDraws_readyTrace d N 0
  simpa using h2

/-- Each system step preserves the safety invariant. -/
theorem sysInv_step (s s2 : SysState) (l : SysLabel) (h : sysInv s)
    (hs : sysStep s l = some s2) : sysInv s2 := by
  cases l with
  | fetchCycle d =>
    simp only [sysStep] at hs
    injection hs with h2
    subst h2
    exact ⟨fun _ => Nat.succ_pos _, fun _ => Nat.succ_pos _⟩
  | renderPass =>
    simp only [sysStep] at hs
    by_cases hrun : s.loop = .running
    · rw [if_pos hrun] at hs
      rcases hp : run_app_pass s.store s.counter s.chan with ⟨tr, c2, ch2, o⟩
      rw [hp] at hs
      have hdraws : uiDraws tr ≠ [] → 0 < s.writes := by
        intro hne
        rcases hst : s.store with _ | d
        · rw [hst] at hp
          have h0 := uiDraws_none_pass s.counter s.chan
          rw [hp] at h0
          exact absurd h0 hne
        · exact h.1 (by rw [hst]; rfl)
      have hinv2 : sysInv { s with
          counter := c2
          chan := ch2
          readyDraws := s.readyDraws ++ uiDraws tr
          loadingDraws := s.loadingDraws ++ loadingTicks tr } := by
        refine ⟨h.1, fun hne => ?_⟩
        rcases hu : uiDraws tr with _ | ⟨x, xs⟩
        · apply h.2
          simpa [hu] using hne
        · exact hdraws (by rw [hu]; simp)
      cases o
      · injection hs with h2
        subst h2
        exact hinv2
      · injection hs with h2
        subst h2
        exact ⟨hinv2.1, hinv2.2⟩
      · injection hs with h2
        subst h2
        exact ⟨hinv2.1, hinv2.2⟩
      · cases hs
    · rw [if_neg hrun] at hs
      cases hs
  | inputRead r =>
    cases r with
    | ioError =>
      simp only [sysStep] at hs
      by_cases ha : s.inputAlive = true
      · rw [if_pos ha] at hs
        injection hs with h2
        subst h2
        exact ⟨h.1, h.2⟩
      · rw [if_neg ha] at hs
        cases hs
    | ok ev =>
      simp only [sysStep] at hs
      by_cases ha : s.inputAlive = true
      · rw [if_pos ha] at hs
        rcases hst : input_worker_step ev with _ | e
        · rw [hst] at hs
          injection hs with h2
          subst h2
          exact h
        · rw [hst] at hs
          injection hs with h2
          subst h2
          exact ⟨h.1, h.2⟩
      · rw [if_neg ha] at hs
        cases hs

/-- The safety invariant holds along every enabled schedule. -/
theorem sysInv_run (ls : List SysLabel) :
    ∀ s s2, sysInv s → sysRun s ls = some s2 → sysInv s2 := by
  induction ls with
  | nil =>
    intro s s2 h hr
    injection hr with h2
    subst h2
    exact h
  | cons l ls ih =>
    intro s s2 h hr
    unfold sysRun at hr
    rcases hstep : sysStep s l with _ | s3
    · rw [hstep] at hr
      cases hr
    · rw [hstep] at hr
      exact ih s3 s2 (sysInv_step s s3 l h hstep) hr

/-- C8: in every state reachable from the start (empty store, Loading), a
Ready render implies a completed write() — the fetch worker is the sole
writer and the loop never shows Ready before its first write.  Moreover,
once the store holds a snapshot (a fetch succeeded), the very next
render-loop pass draws it — the loop reaches Ready within one fetch cycle
of the write — and that pass is enabled as soon as any event is queued
(the fetch worker queues Redraw in the same cycle as the write). -/
theorem ready_render_requires_write (ls : List SysLabel) (s2 : SysState)
    (h : sysRun sysInit ls = some s2) :
    (s2.readyDraws ≠ [] → 0 < s2.writes) ∧
    (∀ d, s2.store = some d → ∀ s3, sysStep s2 .renderPass = some s3 →
      s3.readyDraws = s2.readyDraws ++ [d]) ∧
    (s2.store.isSome → s2.loop = .running → s2.chan.queue ≠ [] →
      (sysStep s2 .renderPass).isSome) := by
  refine ⟨(sysInv_run ls sysInit s2 ⟨by simp [sysInit], by simp [sysInit]⟩ h).2, ?_, ?_⟩
  · intro d hd s3 hstep
    simp only [sysStep] at hstep
    by_cases hrun : s2.loop = .running
    · rw [if_pos hrun] at hstep
      rcases hp : run_app_pass s2.store s2.counter s2.chan with ⟨tr, c2, ch2, o⟩
      rw [hp] at hstep
      have htr : tr = [(.drawUi d, true), (.chanRecv, true)] := by
        have h1 := run_app_pass_some_trace d s2.counter s2.chan
        rw [← hd, hp] at h1
        exact h1
      have hu : uiDraws tr = [d] := by
        rw [htr]
        rfl
      cases o
      · injection hstep with h2
        rw [← h2, hu]
      · injection hstep with h2
        rw [← h2, hu]
      · injection hstep with h2
        rw [← h2, hu]
      · cases hstep
    · rw [if_neg hrun] at hstep
      cases hstep
  · intro hsome hrun hq
    obtain ⟨d, hd⟩ := Option.isSome_iff_exists.mp hsome
    rcases hqe : s2.chan.queue with _ | ⟨e, rest⟩
    · exact absurd hqe hq
    · have hch : s2.chan = ⟨e :: rest, s2.chan.sendersAlive⟩ := by
        rw [← hqe]
      simp only [sysStep, if_pos hrun]
      rcases hp : run_app_pass s2.store s2.counter s2.chan with ⟨tr, c2, ch2, o⟩
      have ho : o ≠ .blockedOnRecv := by
        have h1 : (run_app_pass s2.store s2.counter s2.chan).outcome = o := by
          rw [hp]
        rw [hd, hch, run_app_pass_some_outcome] at h1
        cases e
        · rw [← h1]
          decide
        · rw [← h1]
          decide
      cases o
      · rfl
      · rfl
      · rfl
      · exact absurd rfl ho

theorem ready_render_requires_write_witness :
    (sysStep (⟨some (wDefault "t"), ⟨[.redraw], true⟩, 0, 1, [], [], .running,
        true⟩ : SysState) .renderPass).isSome := by
  have h := ready_render_requires_write [.fetchCycle (wDefault "t")] _ rfl
  exact h.2.2 rfl rfl (by decide)

/-- C5: every fetch worker cycle calls the fetch collaborator first, writes
the snapshot wholesale into the store, emits Redraw, then sleeps 10
seconds, and the loop repeats forever; get_weather_data substitutes the
component default for every failed call, so a snapshot is written and a
Redraw emitted on every cycle regardless of failures — in particular, when
every call of the first fetch fails, the written snapshot is the
placeholder tuple and the next render pass draws it as Ready, not
Loading. -/
theorem fetch_cycle_always_writes (gd : String → WeatherData) (sid now : String)
    (n : Nat) (s : SysState) (hrun : s.loop = .running) :
    fetch_worker_cycle gd sid
      = [.callGetData, .storeReplace (gd sid), .sendEvent .redraw, .sleepSecs 10] ∧
    fetch_worker_run gd sid (n + 1)
      = fetch_worker_cycle gd sid ++ fetch_worker_run gd sid n ∧
    sysStep s (.fetchCycle (gd sid))
      = some { s with
                store := some (gd sid)
                writes := s.writes + 1
                chan := s.chan.send .redraw } ∧
    get_weather_data apiAllFail now sid = wDefault now ∧
    (sysRun sysInit [.fetchCycle (get_weather_data apiAllFail now sid),
        .renderPass]).map (fun s2 => (s2.readyDraws, s2.store, s2.writes))
      = some ([wDefault now], some (wDefault now), 1) := by
  refine ⟨rfl, rfl, ?_, rfl, rfl⟩
  simp [sysStep, sysSend, hrun]

theorem fetch_cycle_always_writes_witness :
    sysStep sysInit (.fetchCycle (wDefault "t"))
      = some { sysInit with
                store := some (wDefault "t")
                writes := sysInit.writes + 1
                chan := sysInit.chan.send .redraw } :=
  (fetch_cycle_always_writes (fun _ => wDefault "t") "KMSN" "t" 0 sysInit rfl).2.2.1

/-- C9 counterexample: after the input worker's read fails (its unwrap
panics and that thread dies), the rest of the process keeps running — a
subsequent fetch cycle still writes and a subsequent render pass still
draws — so the failure is not fatal to the whole process. -/
theorem input_fail_not_process_fatal :
    (sysRun sysInit [.inputRead .ioError, .fetchCycle (wDefault "t"),
        .renderPass]).map
      (fun s => (s.inputAlive, s.writes, s.readyDraws.length, s.loop))
    = some (false, 1, 1, .running) := rfl

/-- C9 (amended): a failure of the blocking terminal read makes the input
worker's unwrap panic with no recovery or retry — the worker thread stops
permanently and emits nothing — but only that thread dies: fetch cycles
remain enabled, and the render loop keeps running (in Loading it keeps
animating, since try_recv never blocks); the channel stays connected
because the fetch worker's sender is still alive. -/
theorem input_fail_fatal_to_worker_only (s : SysState) (h : s.inputAlive = true) :
    sysStep s (.inputRead .ioError) = some { s with inputAlive := false } ∧
    (∀ r, sysStep { s with inputAlive := false } (.inputRead r) = none) ∧
    (∀ d, (sysStep { s with inputAlive := false } (.fetchCycle d)).isSome) ∧
    (s.loop = .running → s.store = none →
      (sysStep { s with inputAlive := false } .renderPass).isSome) := by
  refine ⟨by simp [sysStep, h], fun r => by cases r <;> simp [sysStep], fun d => rfl, ?_⟩
  intro hrun hst
  exact sysStep_renderPass_loading_isSome { s with inputAlive := false } hrun hst

theorem input_fail_fatal_to_worker_only_witness :
    sysStep sysInit (.inputRead .ioError) = some { sysInit with inputAlive := false } :=
  (input_fail_fatal_to_worker_only sysInit rfl).1

end Wx
